import Mathlib

/-!
Shallow embedding of the credit accounting and access-tier enforcement
engine of the easyprompt backend (`server.js`, `userHelpers.js`).

The persistent `users` table is modelled as an association list from user id
to the row's fields; the in-memory anonymous credit `Map` is an association
list from client IP to the remaining balance.  All JavaScript numbers that
hold credit balances are integers in the source, so they are modelled as
`Int`.  Timestamps are milliseconds since the epoch, modelled as `Int`
(`Date.getTime()` arithmetic and `>=` comparison carry over directly).
External collaborators (token verification via Supabase auth, the OpenAI
completion call) are parameters of the environment, exactly as the spec
treats them.
-/

namespace EasyPrompt

/-- `DAILY_CREDITS = 3` from `userHelpers.js` / `server.js`. -/
def DAILY_CREDITS : Int := 3

/-- `ANONYMOUS_FREE_CREDITS = 5` from `server.js`. -/
def ANONYMOUS_FREE_CREDITS : Int := 5

/-- `SIGNUP_BONUS = 10` from `userHelpers.js`. -/
def SIGNUP_BONUS : Int := 10

/-- Milliseconds in 24 hours, `24 * 60 * 60 * 1000` from the source. -/
def DAY_MS : Int := 86400000

/-- One row of the `users` table, restricted to the fields the credit engine
reads and writes: `is_pro`, `credits` (bonus credits), `daily_credits_used`,
`daily_reset_at`, `signup_bonus_given`. -/
structure Account where
  isPro : Bool
  credits : Int
  dailyCreditsUsed : Int
  dailyResetAt : Option Int
  signupBonusGiven : Bool
deriving Repr, DecidableEq

/-- The record returned by `getUserCreditInfo` in `userHelpers.js`. -/
structure CreditInfo where
  credits : Int
  dailyCreditsUsed : Int
  dailyResetAt : Option Int
  signupBonusGiven : Bool
deriving Repr, DecidableEq

/-- Projection of an account row to the fields `getUserCreditInfo` selects. -/
def Account.info (a : Account) : CreditInfo :=
  { credits := a.credits
    dailyCreditsUsed := a.dailyCreditsUsed
    dailyResetAt := a.dailyResetAt
    signupBonusGiven := a.signupBonusGiven }

/-- The `users` table: one row per user id. -/
abbrev Users := List (String × Account)

/-- The in-memory anonymous credits `Map` of `server.js`, IP to remaining. -/
abbrev AnonPool := List (String × Int)

/-- `select ... eq('id', userId) single()`: the first row with the given id. -/
def lookupUser (users : Users) (uid : String) : Option Account :=
  match users with
  | [] => none
  | p :: rest => if p.1 = uid then some p.2 else lookupUser rest uid

/-- `update(fields).eq('id', userId)` without `.single()`: rewrites every row
whose id matches and is a silent no-op when no row matches. -/
def updateUser (users : Users) (uid : String) (f : Account → Account) : Users :=
  users.map (fun p => if p.1 = uid then (p.1, f p.2) else p)

/-- `Map.prototype.get` on the anonymous pool. -/
def mapGet (m : AnonPool) (k : String) : Option Int :=
  match m with
  | [] => none
  | p :: rest => if p.1 = k then some p.2 else mapGet rest k

/-- `Map.prototype.set` on the anonymous pool: replaces the entry for the
key when present, otherwise appends a new entry. -/
def mapSet (m : AnonPool) (k : String) (v : Int) : AnonPool :=
  match m with
  | [] => [(k, v)]
  | p :: rest => if p.1 = k then (k, v) :: rest else p :: mapSet rest k v

/-- `getAnonymousCredits` (`server.js`): inserts `ANONYMOUS_FREE_CREDITS`
when the IP has no entry yet, and returns the entry's value. -/
def getAnonymousCreditsM (pool : AnonPool) (ip : String) : Int × AnonPool :=
  match mapGet pool ip with
  | some v => (v, pool)
  | none => (ANONYMOUS_FREE_CREDITS, mapSet pool ip ANONYMOUS_FREE_CREDITS)

/-- `deductAnonymousCredits` (`server.js`): reads the current balance
(creating the entry when absent), throws `Insufficient credits` when the
balance is below the amount, otherwise stores and returns the decremented
balance.  The second component is the pool after the call, whether or not
it threw. -/
def deductAnonymousCreditsM (pool : AnonPool) (ip : String) (amount : Int) :
    Except String Int × AnonPool :=
  let r := getAnonymousCreditsM pool ip
  if r.1 < amount then (.error "Insufficient credits", r.2)
  else (.ok (r.1 - amount), mapSet r.2 ip (r.1 - amount))

/-- `getUserCreditInfo` (`userHelpers.js`): reads the row's credit fields,
returning all-zero/none/false defaults when the row is absent. -/
def getUserCreditInfoM (users : Users) (uid : String) : CreditInfo :=
  match lookupUser users uid with
  | some a => a.info
  | none =>
    { credits := 0, dailyCreditsUsed := 0, dailyResetAt := none
      signupBonusGiven := false }

/-- `getUserProStatus` (`userHelpers.js`): `is_pro === true`, false when the
row is absent. -/
def getUserProStatusM (users : Users) (uid : String) : Bool :=
  match lookupUser users uid with
  | some a => a.isPro
  | none => false

/-- `resetDailyCreditsIfNeeded` (`userHelpers.js`): when `daily_reset_at` is
missing or `now >= daily_reset_at`, persists `daily_credits_used = 0` and
`daily_reset_at = now + 24h` and returns true; otherwise no-op, false. -/
def resetDailyCreditsIfNeededM (now : Int) (users : Users) (uid : String) :
    Bool × Users :=
  let info := getUserCreditInfoM users uid
  match info.dailyResetAt with
  | some resetAt =>
    if now ≥ resetAt then
      (true, updateUser users uid (fun a =>
        { a with dailyCreditsUsed := 0, dailyResetAt := some (now + DAY_MS) }))
    else (false, users)
  | none =>
    (true, updateUser users uid (fun a =>
      { a with dailyCreditsUsed := 0, dailyResetAt := some (now + DAY_MS) }))

/-- The record returned by `deductFreeUserCredits`. -/
structure DeductResult where
  remainingCredits : Int
  dailyCreditsRemaining : Int
  creditSource : String
deriving Repr, DecidableEq

deriving instance DecidableEq for Except

/-- `deductFreeUserCredits` (`userHelpers.js`): rejects non-positive
amounts, resets the daily window if expired, recomputes availability as
`(DAILY_CREDITS - dailyCreditsUsed) + credits`, throws
`Insufficient credits` when below the amount, and otherwise draws from the
daily allowance first and any shortfall from bonus credits, persisting both
counters in one update.  The final `update ... select ... single()` fails
when the row is absent. -/
def deductFreeUserCreditsM (now : Int) (users : Users) (uid : String)
    (amount : Int) : Except String (DeductResult × Users) :=
  if amount ≤ 0 then .error "Deduction amount must be positive"
  else
    let users1 := (resetDailyCreditsIfNeededM now users uid).2
    let info := getUserCreditInfoM users1 uid
    let dailyCreditsAvailable := DAILY_CREDITS - info.dailyCreditsUsed
    let bonusCredits := info.credits
    if dailyCreditsAvailable + bonusCredits < amount then
      .error "Insufficient credits"
    else
      let newDailyCreditsUsed :=
        if dailyCreditsAvailable ≥ amount then info.dailyCreditsUsed + amount
        else DAILY_CREDITS
      let newBonusCredits :=
        if dailyCreditsAvailable ≥ amount then bonusCredits
        else bonusCredits - (amount - dailyCreditsAvailable)
      let creditSource :=
        if dailyCreditsAvailable ≥ amount then "daily" else "mixed"
      match lookupUser users1 uid with
      | none => .error "Failed to deduct credits: PGRST116"
      | some _ =>
        .ok ({ remainingCredits := newBonusCredits
               dailyCreditsRemaining := DAILY_CREDITS - newDailyCreditsUsed
               creditSource := creditSource },
             updateUser users1 uid (fun a =>
               { a with dailyCreditsUsed := newDailyCreditsUsed
                        credits := newBonusCredits }))

/-- `grantSignupBonus` (`userHelpers.js`): no-op when `signup_bonus_given`
is already true, otherwise adds `SIGNUP_BONUS` to `credits` and sets the
flag in one update. -/
def grantSignupBonusM (users : Users) (uid : String) : Users :=
  let info := getUserCreditInfoM users uid
  if info.signupBonusGiven then users
  else updateUser users uid (fun a =>
    { a with credits := info.credits + SIGNUP_BONUS, signupBonusGiven := true })

/-- The availability computed by the gate in `handlePromptImprovement`
(`server.js` lines 799-803) and inside `deductFreeUserCredits`:
`(DAILY_CREDITS - dailyCreditsUsed) + credits`, with no clamp. -/
def totalAvailableGate (info : CreditInfo) : Int :=
  (DAILY_CREDITS - info.dailyCreditsUsed) + info.credits

/-- Modelled from the spec (section 4.3 `availableBalance`): the spec's
words give `max(0, DAILY_ALLOWANCE - dailyCreditsUsed) + bonusCredits`;
kept separate so it can be compared with the formula the code uses. -/
def availableBalanceSpec (info : CreditInfo) : Int :=
  max 0 (DAILY_CREDITS - info.dailyCreditsUsed) + info.credits

/-- The `credits_remaining` computation of the `GET /api/me` handler
(`server.js` lines 324-351): Pro accounts report 999999; otherwise an
expired/missing window reports the full daily allowance and an unexpired
window reports `max(0, DAILY_CREDITS - dailyCreditsUsed)`, plus bonus. -/
def apiMeCreditsRemaining (now : Int) (a : Account) : Int :=
  if a.isPro then 999999
  else
    let dailyCreditsAvailable :=
      match a.dailyResetAt with
      | none => DAILY_CREDITS
      | some resetAt =>
        if now ≥ resetAt then DAILY_CREDITS
        else max 0 (DAILY_CREDITS - a.dailyCreditsUsed)
    dailyCreditsAvailable + a.credits

/-- The validation `!original_prompt || !original_prompt.trim()` of the
handler: a JavaScript string is falsy exactly when it is empty, and the
trimmed string is empty exactly when every character is whitespace, so the
request is rejected iff the prompt consists only of whitespace. -/
def isBlank (s : String) : Bool :=
  s.toList.all (fun c => c.isWhitespace)

/-- The three prompt-rewrite modes. -/
inductive Mode where
  | improve
  | refine
  | followup
deriving Repr, DecidableEq

/-- `creditCosts` table of `handlePromptImprovement`. -/
def creditCost : Mode → Int
  | .improve => 1
  | .refine => 1
  | .followup => 2

/-- The observable HTTP outcome of one `handlePromptImprovement` call. -/
structure ApiResponse where
  status : Nat
  success : Bool := false
  output : Option String := none
  creditsRemaining : Option Int := none
  errorMsg : Option String := none
deriving Repr, DecidableEq

/-- The mutable state the handler touches: the anonymous pool and the
`users` table.  The prompt-history table is append-only and never read by
the credit engine, so it is not part of the modelled state. -/
structure ServerState where
  anonymousCredits : AnonPool
  users : Users
deriving Repr, DecidableEq

/-- External collaborators: `verify` is Supabase token verification
(token to user id, `none` on an invalid/expired token); `genOutput` is the
cleaned-up OpenAI completion (`none` models a provider failure or an empty
completion, both of which the source turns into a 500). -/
structure Env where
  verify : String → Option String
  now : Int
  openaiConfigured : Bool
  genOutput : Option String

/-- One inbound request, with the client IP already derived by
`getClientIP` (a pure fallback chain over the headers). -/
structure Req where
  token : Option String
  originalPrompt : String
  previousPrompt : Option String
  clientIP : String

/-- The tail of the handler after a successful reservation: the OpenAI
configuration check, the completion call, the best-effort history save
(which touches no modelled state), and the `COMPLETED` response carrying
the reserved `remaining` value. -/
def genPhase (env : Env) (st : ServerState) (remaining : Int) :
    ApiResponse × ServerState :=
  if env.openaiConfigured then
    match env.genOutput with
    | some out =>
      ({ status := 200, success := true, output := some out
         creditsRemaining := some remaining }, st)
    | none => ({ status := 500, errorMsg := some "OpenAI API error" }, st)
  else ({ status := 500, errorMsg := some "OpenAI API not configured" }, st)

/-- The anonymous branch of the credit section (`server.js` 729-769). -/
def anonymousCreditsPhase (env : Env) (req : Req) (mode : Mode)
    (st : ServerState) : ApiResponse × ServerState :=
  let cost := creditCost mode
  let r := getAnonymousCreditsM st.anonymousCredits req.clientIP
  let currentCredits := r.1
  let st1 : ServerState := { st with anonymousCredits := r.2 }
  if currentCredits ≤ 0 then
    ({ status := 402, errorMsg := some "No credits remaining."
       creditsRemaining := some currentCredits }, st1)
  else if currentCredits < cost then
    ({ status := 402, errorMsg := some "No credits remaining."
       creditsRemaining := some currentCredits }, st1)
  else
    let d := deductAnonymousCreditsM st1.anonymousCredits req.clientIP cost
    match d.1 with
    | .ok remaining =>
      genPhase env { st1 with anonymousCredits := d.2 } remaining
    | .error msg =>
      if msg = "Insufficient credits" then
        ({ status := 402, errorMsg := some "No credits remaining."
           creditsRemaining := some currentCredits },
         { st1 with anonymousCredits := d.2 })
      else
        ({ status := 500, errorMsg := some "Failed to process credits" },
         { st1 with anonymousCredits := d.2 })

/-- The free-user branch of the credit section for improve/refine
(`server.js` 790-842): reset the window, recompute availability, deny with
402 when below cost, otherwise call `deductFreeUserCredits`. -/
def freeUserCreditsPhase (env : Env) (mode : Mode) (st : ServerState)
    (uid : String) : ApiResponse × ServerState :=
  let cost := creditCost mode
  let users1 := (resetDailyCreditsIfNeededM env.now st.users uid).2
  let st1 : ServerState := { st with users := users1 }
  let info := getUserCreditInfoM users1 uid
  let totalAvailable := totalAvailableGate info
  if totalAvailable < cost then
    ({ status := 402, errorMsg := some "No credits remaining."
       creditsRemaining := some totalAvailable }, st1)
  else
    match deductFreeUserCreditsM env.now users1 uid cost with
    | .ok (result, users2) =>
      genPhase env { st1 with users := users2 } result.remainingCredits
    | .error msg =>
      if msg = "Insufficient credits" then
        ({ status := 402, errorMsg := some "No credits remaining."
           creditsRemaining := some totalAvailable }, st1)
      else
        ({ status := 500, errorMsg := some "Failed to process credits" }, st1)

/-- The authenticated branch of the credit section (`server.js` 770-849):
Pro accounts skip every credit check and report the `-1` unlimited
sentinel; free accounts take the daily+bonus path for improve/refine; the
followup fallthrough (already Pro-gated) also reports the sentinel. -/
def authenticatedCreditsPhase (env : Env) (mode : Mode) (st : ServerState)
    (uid : String) : ApiResponse × ServerState :=
  if getUserProStatusM st.users uid then genPhase env st (-1)
  else
    match mode with
    | .improve => freeUserCreditsPhase env mode st uid
    | .refine => freeUserCreditsPhase env mode st uid
    | .followup => genPhase env st (-1)

/-- Dispatch of the credit section on the resolved identity. -/
def creditsPhase (env : Env) (req : Req) (mode : Mode) (st : ServerState) :
    Option String → ApiResponse × ServerState
  | none => anonymousCreditsPhase env req mode st
  | some uid => authenticatedCreditsPhase env mode st uid

/-- The Pro-only gate for followup (`server.js` 693-710), in front of the
credit section: followup without an authenticated identity is a 401,
followup on a non-Pro account is a 403. -/
def proGatePhase (env : Env) (req : Req) (mode : Mode) (st : ServerState)
    (auth : Option String) : ApiResponse × ServerState :=
  match mode, auth with
  | .followup, none =>
    ({ status := 401, errorMsg := some "Authentication required." }, st)
  | .followup, some uid =>
    if getUserProStatusM st.users uid then
      creditsPhase env req mode st (some uid)
    else
      ({ status := 403, errorMsg := some "Follow-up is a Pro feature." }, st)
  | .improve, _ => creditsPhase env req mode st auth
  | .refine, _ => creditsPhase env req mode st auth

/-- `handlePromptImprovement` (`server.js` 630-1011): validates the prompt,
requires a token for followup, verifies the token (an invalid token is a
401 for followup and degrades to anonymous for improve/refine), then runs
the Pro gate, the credit section and the generation tail. -/
def handlePromptImprovement (env : Env) (mode : Mode) (req : Req)
    (st : ServerState) : ApiResponse × ServerState :=
  if isBlank req.originalPrompt then
    ({ status := 400, errorMsg := some "original_prompt is required" }, st)
  else
    match req.token with
    | none =>
      match mode with
      | .followup =>
        ({ status := 401, errorMsg := some "Authentication required." }, st)
      | _ => proGatePhase env req mode st none
    | some t =>
      match env.verify t with
      | some uid => proGatePhase env req mode st (some uid)
      | none =>
        match mode with
        | .followup =>
          ({ status := 401, errorMsg := some "Invalid or expired token" }, st)
        | _ => proGatePhase env req mode st none

/-! ### Laws of the association-list maps -/

theorem lookupUser_updateUser_self (users : Users) (uid : String)
    (f : Account → Account) :
    lookupUser (updateUser users uid f) uid = (lookupUser users uid).map f := by
  induction users with
  | nil => rfl
  | cons p rest ih =>
    by_cases h : p.1 = uid
    · simp [updateUser, lookupUser, h]
    · simpa [updateUser, lookupUser, h] using ih

theorem mapGet_mapSet_self (m : AnonPool) (k : String) (v : Int) :
    mapGet (mapSet m k v) k = some v := by
  induction m with
  | nil => simp [mapGet, mapSet]
  | cons p rest ih =>
    by_cases h : p.1 = k
    · simp [mapGet, mapSet, h]
    · simpa [mapGet, mapSet, h] using ih

theorem getAnonymousCreditsM_present (pool : AnonPool) (ip : String) (r : Int)
    (h : mapGet pool ip = some r) :
    getAnonymousCreditsM pool ip = (r, pool) := by
  simp [getAnonymousCreditsM, h]

/-! ### The daily-window reset -/

theorem resetDaily_noop (now : Int) (users : Users) (uid : String)
    (a : Account) (r : Int) (hl : lookupUser users uid = some a)
    (hr : a.dailyResetAt = some r) (hn : now < r) :
    resetDailyCreditsIfNeededM now users uid = (false, users) := by
  have hge : ¬ now ≥ r := by omega
  simp [resetDailyCreditsIfNeededM, getUserCreditInfoM, hl, Account.info,
    hr, hge]

theorem resetDaily_lookup (now : Int) (users : Users) (uid : String)
    (a : Account) (hl : lookupUser users uid = some a) :
    lookupUser (resetDailyCreditsIfNeededM now users uid).2 uid = some a ∨
    lookupUser (resetDailyCreditsIfNeededM now users uid).2 uid =
      some { a with dailyCreditsUsed := 0,
                    dailyResetAt := some (now + DAY_MS) } := by
  cases hra : a.dailyResetAt with
  | none =>
    right
    simp [resetDailyCreditsIfNeededM, getUserCreditInfoM, hl, Account.info,
      hra, lookupUser_updateUser_self]
  | some r =>
    by_cases hge : now ≥ r
    · right
      simp [resetDailyCreditsIfNeededM, getUserCreditInfoM, hl, Account.info,
        hra, hge, lookupUser_updateUser_self]
    · left
      simp [resetDailyCreditsIfNeededM, getUserCreditInfoM, hl, Account.info,
        hra, hge]

/-! ### Characterisation of a successful free-user deduction -/

theorem deductFree_ok_cases (now amount : Int) (users : Users) (uid : String)
    (res : DeductResult) (users2 : Users)
    (h : deductFreeUserCreditsM now users uid amount = .ok (res, users2)) :
    ∃ a1, lookupUser (resetDailyCreditsIfNeededM now users uid).2 uid = some a1 ∧
      0 < amount ∧
      amount ≤ (DAILY_CREDITS - a1.dailyCreditsUsed) + a1.credits ∧
      ((amount ≤ DAILY_CREDITS - a1.dailyCreditsUsed ∧
        res = { remainingCredits := a1.credits
                dailyCreditsRemaining :=
                  DAILY_CREDITS - (a1.dailyCreditsUsed + amount)
                creditSource := "daily" } ∧
        users2 = updateUser (resetDailyCreditsIfNeededM now users uid).2 uid
          (fun b => { b with dailyCreditsUsed := a1.dailyCreditsUsed + amount
                             credits := a1.credits })) ∨
       (DAILY_CREDITS - a1.dailyCreditsUsed < amount ∧
        res = { remainingCredits :=
                  a1.credits - (amount - (DAILY_CREDITS - a1.dailyCreditsUsed))
                dailyCreditsRemaining := 0
                creditSource := "mixed" } ∧
        users2 = updateUser (resetDailyCreditsIfNeededM now users uid).2 uid
          (fun b => { b with dailyCreditsUsed := DAILY_CREDITS
                             credits := a1.credits -
                               (amount - (DAILY_CREDITS - a1.dailyCreditsUsed)) }))) := by
  unfold deductFreeUserCreditsM at h
  by_cases h0 : amount ≤ 0
  · simp [h0] at h
  · simp only [h0, if_false] at h
    rcases hlook : lookupUser (resetDailyCreditsIfNeededM now users uid).2 uid
      with _ | a1
    · simp only [getUserCreditInfoM, hlook] at h
      split at h
      · exact absurd h (by simp)
      · exact absurd h (by simp)
    · refine ⟨a1, rfl, by omega, ?_⟩
      simp only [getUserCreditInfoM, hlook, Account.info] at h
      by_cases hins : (DAILY_CREDITS - a1.dailyCreditsUsed) + a1.credits < amount
      · simp [hins] at h
      · refine ⟨by omega, ?_⟩
        by_cases hdaily : DAILY_CREDITS - a1.dailyCreditsUsed ≥ amount
        · left
          simp only [hins, if_false, hdaily, if_true, Except.ok.injEq,
            Prod.mk.injEq] at h
          exact ⟨by omega, h.1.symm, h.2.symm⟩
        · right
          simp only [hins, if_false, hdaily, if_false, Except.ok.injEq,
            Prod.mk.injEq] at h
          refine ⟨by omega, ?_, h.2.symm⟩
          rw [← h.1]
          simp [DAILY_CREDITS]

/-! ### Claim C1: draw order of the two-source deduction -/

/-- C1: for every non-Pro authenticated deduction of amount `a` from an
account with daily usage `u` and bonus credits `b` such that
`(3 - u) + b >= a` (stated for an unexpired daily window, so that the
window reset performed first is a no-op): if the daily availability
`3 - u` covers `a`, the ledger adds `a` to the daily-usage counter, leaves
bonus credits unchanged and reports source `"daily"`; otherwise it sets
the daily-usage counter to `3`, subtracts the shortfall `a - (3 - u)` from
bonus credits and reports source `"mixed"`. -/
theorem C1_deduct_draw_order (now r amount : Int) (users : Users)
    (uid : String) (a : Account)
    (hl : lookupUser users uid = some a)
    (hr : a.dailyResetAt = some r) (hn : now < r)
    (hpos : 0 < amount)
    (hsuff : amount ≤ (DAILY_CREDITS - a.dailyCreditsUsed) + a.credits) :
    (amount ≤ DAILY_CREDITS - a.dailyCreditsUsed →
      ∃ users2,
        deductFreeUserCreditsM now users uid amount =
          .ok ({ remainingCredits := a.credits
                 dailyCreditsRemaining :=
                   DAILY_CREDITS - (a.dailyCreditsUsed + amount)
                 creditSource := "daily" }, users2) ∧
        lookupUser users2 uid =
          some { a with dailyCreditsUsed := a.dailyCreditsUsed + amount }) ∧
    (DAILY_CREDITS - a.dailyCreditsUsed < amount →
      ∃ users2,
        deductFreeUserCreditsM now users uid amount =
          .ok ({ remainingCredits :=
                   a.credits - (amount - (DAILY_CREDITS - a.dailyCreditsUsed))
                 dailyCreditsRemaining := 0
                 creditSource := "mixed" }, users2) ∧
        lookupUser users2 uid =
          some { a with
                 dailyCreditsUsed := DAILY_CREDITS
                 credits :=
                   a.credits - (amount - (DAILY_CREDITS - a.dailyCreditsUsed)) }) := by
  have hreset := resetDaily_noop now users uid a r hl hr hn
  have h0 : ¬ amount ≤ 0 := by omega
  have hins : ¬ ((DAILY_CREDITS - a.dailyCreditsUsed) + a.credits < amount) := by
    omega
  constructor
  · intro hdaily
    refine ⟨updateUser users uid (fun b =>
      { b with dailyCreditsUsed := a.dailyCreditsUsed + amount
               credits := a.credits }), ?_, ?_⟩
    · simp [deductFreeUserCreditsM, hreset, getUserCreditInfoM, hl,
        Account.info, h0, hins, show DAILY_CREDITS - a.dailyCreditsUsed ≥ amount
        from by omega]
    · simp [lookupUser_updateUser_self, hl]
  · intro hmixed
    refine ⟨updateUser users uid (fun b =>
      { b with dailyCreditsUsed := DAILY_CREDITS
               credits :=
                 a.credits - (amount - (DAILY_CREDITS - a.dailyCreditsUsed)) }),
      ?_, ?_⟩
    · simp [deductFreeUserCreditsM, hreset, getUserCreditInfoM, hl,
        Account.info, h0, hins,
        show ¬ (DAILY_CREDITS - a.dailyCreditsUsed ≥ amount) from by omega,
        show DAILY_CREDITS - DAILY_CREDITS = (0 : Int) from by
          norm_num [DAILY_CREDITS]]
    · simp [lookupUser_updateUser_self, hl]

/-- The account of the spec's worked deduction example: daily usage 2,
bonus credits 5, unexpired window. -/
def acctExample : Account :=
  { isPro := false, credits := 5, dailyCreditsUsed := 2
    dailyResetAt := some 100, signupBonusGiven := true }

/-- Witness for C1 at the claim's concrete instance `u = 2, b = 5, a = 2`:
the result is source `"mixed"` with bonus credits 4 and daily usage 3. -/
theorem C1_deduct_draw_order_witness :
    ∃ users2,
      deductFreeUserCreditsM 0 [("u1", acctExample)] "u1" 2 =
        .ok ({ remainingCredits := 4, dailyCreditsRemaining := 0
               creditSource := "mixed" }, users2) ∧
      lookupUser users2 "u1" =
        some { acctExample with dailyCreditsUsed := 3, credits := 4 } := by
  obtain ⟨users2, h1, h2⟩ :=
    (C1_deduct_draw_order 0 100 2 [("u1", acctExample)] "u1" acctExample
      (by decide) (by decide) (by decide) (by decide) (by decide)).2 (by decide)
  refine ⟨users2, ?_, ?_⟩
  · simpa using h1
  · simpa using h2

/-! ### Claim C2: the availability formula used for gating -/

/-- An account whose daily-usage counter exceeds the allowance. -/
def acctOverUsed : Account :=
  { isPro := false, credits := 1, dailyCreditsUsed := 4
    dailyResetAt := some 100, signupBonusGiven := true }

/-- C2 counterexample: with `dailyCreditsUsed = 4` and `bonusCredits = 1`
the gate computes `(3 - 4) + 1 = 0`, not the claimed clamped value
`max(0, 3 - 4) + 1 = 1`, and a cost-1 deduction is denied with
`Insufficient credits` although the clamped balance would admit it. -/
theorem C2_clamp_counterexample :
    totalAvailableGate acctOverUsed.info = 0 ∧
    availableBalanceSpec acctOverUsed.info = 1 ∧
    totalAvailableGate acctOverUsed.info ≠
      availableBalanceSpec acctOverUsed.info ∧
    deductFreeUserCreditsM 0 [("u1", acctOverUsed)] "u1" 1 =
      .error "Insufficient credits" := by decide

/-- C2 amended: the balance the code uses to admit or deny a paid
operation is `(DAILY_ALLOWANCE - dailyCreditsUsed) + bonusCredits` with no
clamp; whenever `dailyCreditsUsed ≤ DAILY_ALLOWANCE` (which the ledger's
own operations maintain) this coincides with the spec's clamped formula,
and the clamped formula itself is used only by the `GET /api/me` display
path. -/
theorem C2_gate_balance_amended (now : Int) (a : Account)
    (h : a.dailyCreditsUsed ≤ DAILY_CREDITS) :
    totalAvailableGate a.info =
      max 0 (DAILY_CREDITS - a.dailyCreditsUsed) + a.credits ∧
    (∀ r, a.isPro = false → a.dailyResetAt = some r → now < r →
      apiMeCreditsRemaining now a =
        max 0 (DAILY_CREDITS - a.dailyCreditsUsed) + a.credits) := by
  have hmax : max 0 (DAILY_CREDITS - a.dailyCreditsUsed) =
      DAILY_CREDITS - a.dailyCreditsUsed := max_eq_right (by omega)
  constructor
  · simp [totalAvailableGate, Account.info, hmax]
  · intro r hpro hra hn
    have hge : ¬ now ≥ r := by omega
    simp [apiMeCreditsRemaining, hpro, hra, hge]

/-- Witness for the amended C2 at `dailyCreditsUsed = 2`. -/
theorem C2_gate_balance_amended_witness :
    totalAvailableGate acctExample.info =
      max 0 (DAILY_CREDITS - acctExample.dailyCreditsUsed) +
        acctExample.credits ∧
    apiMeCreditsRemaining 0 acctExample =
      max 0 (DAILY_CREDITS - acctExample.dailyCreditsUsed) +
        acctExample.credits := by
  have h := C2_gate_balance_amended 0 acctExample (by decide)
  exact ⟨h.1, h.2 100 (by decide) (by decide) (by decide)⟩

/-! ### Claim C4: the anonymous credit pool -/

/-- C4: a first observation of an identifier creates its entry at the
allotment 5; reserving `c ≤ remaining` stores and returns `remaining - c`;
reserving `c > remaining` fails with `Insufficient credits` and leaves the
pool untouched. -/
theorem C4_anonymous_pool (pool : AnonPool) (ip : String) (c : Int) :
    (mapGet pool ip = none →
      getAnonymousCreditsM pool ip =
        (ANONYMOUS_FREE_CREDITS, mapSet pool ip ANONYMOUS_FREE_CREDITS) ∧
      mapGet (getAnonymousCreditsM pool ip).2 ip =
        some ANONYMOUS_FREE_CREDITS ∧
      ANONYMOUS_FREE_CREDITS = 5) ∧
    (∀ r, mapGet pool ip = some r → c ≤ r →
      (deductAnonymousCreditsM pool ip c).1 = .ok (r - c) ∧
      mapGet (deductAnonymousCreditsM pool ip c).2 ip = some (r - c)) ∧
    (∀ r, mapGet pool ip = some r → r < c →
      deductAnonymousCreditsM pool ip c =
        (.error "Insufficient credits", pool)) := by
  refine ⟨?_, ?_, ?_⟩
  · intro h
    refine ⟨by simp [getAnonymousCreditsM, h], ?_, rfl⟩
    simp [getAnonymousCreditsM, h, mapGet_mapSet_self]
  · intro r hget hle
    have hp := getAnonymousCreditsM_present pool ip r hget
    have hnlt : ¬ (r < c) := by omega
    constructor
    · simp [deductAnonymousCreditsM, hp, hnlt]
    · simp [deductAnonymousCreditsM, hp, hnlt, mapGet_mapSet_self]
  · intro r hget hlt
    have hp := getAnonymousCreditsM_present pool ip r hget
    simp [deductAnonymousCreditsM, hp, hlt]

/-- Witness for C4: first sight of `"a"` creates the entry at 5; reserving
2 of 5 leaves 3; reserving 4 of 3 fails and keeps the pool. -/
theorem C4_anonymous_pool_witness :
    getAnonymousCreditsM [] "a" = (5, [("a", 5)]) ∧
    (deductAnonymousCreditsM [("a", 5)] "a" 2).1 = .ok 3 ∧
    mapGet (deductAnonymousCreditsM [("a", 5)] "a" 2).2 "a" = some 3 ∧
    deductAnonymousCreditsM [("a", 3)] "a" 4 =
      (.error "Insufficient credits", [("a", 3)]) := by
  have h1 := (C4_anonymous_pool [] "a" 2).1 (by decide)
  have h2 := (C4_anonymous_pool [("a", 5)] "a" 2).2.1 5 (by decide) (by decide)
  have h3 := (C4_anonymous_pool [("a", 3)] "a" 4).2.2 3 (by decide) (by decide)
  refine ⟨?_, ?_, ?_, h3⟩
  · simpa [ANONYMOUS_FREE_CREDITS, mapSet] using h1.1
  · simpa using h2.1
  · simpa using h2.2

/-! ### Claim C6: idempotence of the signup bonus -/

theorem grant_noop_of_flag (users : Users) (uid : String) (a : Account)
    (hl : lookupUser users uid = some a) (ht : a.signupBonusGiven = true) :
    grantSignupBonusM users uid = users := by
  simp [grantSignupBonusM, getUserCreditInfoM, hl, Account.info, ht]

theorem grant_first_lookup (users : Users) (uid : String) (a : Account)
    (hl : lookupUser users uid = some a)
    (hf : a.signupBonusGiven = false) :
    lookupUser (grantSignupBonusM users uid) uid =
      some { a with credits := a.credits + SIGNUP_BONUS
                    signupBonusGiven := true } := by
  simp [grantSignupBonusM, getUserCreditInfoM, hl, Account.info, hf,
    lookupUser_updateUser_self]

/-- C6: the signup-bonus grant is idempotent: a call that observes the
flag already set changes nothing; a first grant adds exactly 10 bonus
credits and sets the flag; and a second call after any first call is a
no-op, so two sequential calls produce exactly one `+10` change and leave
`signupBonusGiven` true thereafter. -/
theorem C6_signup_bonus_idempotent (users : Users) (uid : String)
    (a : Account) (hl : lookupUser users uid = some a) :
    (a.signupBonusGiven = true → grantSignupBonusM users uid = users) ∧
    (a.signupBonusGiven = false →
      lookupUser (grantSignupBonusM users uid) uid =
        some { a with credits := a.credits + SIGNUP_BONUS
                      signupBonusGiven := true }) ∧
    grantSignupBonusM (grantSignupBonusM users uid) uid =
      grantSignupBonusM users uid := by
  have h2 := grant_first_lookup users uid a hl
  refine ⟨fun ht => grant_noop_of_flag users uid a hl ht, h2, ?_⟩
  cases ht : a.signupBonusGiven
  · exact grant_noop_of_flag _ uid _ (h2 ht) rfl
  · rw [grant_noop_of_flag users uid a hl ht]
    exact grant_noop_of_flag users uid a hl ht

/-- A freshly registered free account: no credits, bonus not yet given. -/
def acctFresh : Account :=
  { isPro := false, credits := 0, dailyCreditsUsed := 0
    dailyResetAt := some 100, signupBonusGiven := false }

/-- Witness for C6 on a fresh account: the first call adds 10, the second
changes nothing. -/
theorem C6_signup_bonus_idempotent_witness :
    lookupUser (grantSignupBonusM [("u1", acctFresh)] "u1") "u1" =
      some { acctFresh with credits := 10, signupBonusGiven := true } ∧
    grantSignupBonusM (grantSignupBonusM [("u1", acctFresh)] "u1") "u1" =
      grantSignupBonusM [("u1", acctFresh)] "u1" := by
  have h := C6_signup_bonus_idempotent [("u1", acctFresh)] "u1" acctFresh
    (by decide)
  exact ⟨by simpa [SIGNUP_BONUS] using h.2.1 rfl, h.2.2⟩

/-! ### Claim C9: the account invariants -/

/-- The persisted-account invariants of the spec: non-negative bonus
credits and a daily-usage counter between 0 and the allowance. -/
def InvAccount (a : Account) : Prop :=
  0 ≤ a.credits ∧ 0 ≤ a.dailyCreditsUsed ∧ a.dailyCreditsUsed ≤ DAILY_CREDITS

instance (a : Account) : Decidable (InvAccount a) := by
  unfold InvAccount
  infer_instance

/-- C9: an admitted deduction, a daily-window reset, and a signup-bonus
grant each preserve `bonusCredits ≥ 0` and
`0 ≤ dailyCreditsUsed ≤ DAILY_ALLOWANCE` on the persisted account row. -/
theorem C9_invariants_preserved (now amount : Int) (users : Users)
    (uid : String) (a : Account)
    (hl : lookupUser users uid = some a) (hInv : InvAccount a) :
    (∀ res users2,
      deductFreeUserCreditsM now users uid amount = .ok (res, users2) →
      ∀ a2, lookupUser users2 uid = some a2 → InvAccount a2) ∧
    (∀ a2,
      lookupUser (resetDailyCreditsIfNeededM now users uid).2 uid = some a2 →
      InvAccount a2) ∧
    (∀ a2, lookupUser (grantSignupBonusM users uid) uid = some a2 →
      InvAccount a2) := by
  obtain ⟨i1, i2, i3⟩ := hInv
  have hreset : ∀ a2,
      lookupUser (resetDailyCreditsIfNeededM now users uid).2 uid = some a2 →
      InvAccount a2 := by
    intro a2 h2
    rcases resetDaily_lookup now users uid a hl with hcase | hcase
    · rw [hcase] at h2
      obtain rfl := Option.some.injEq _ _ ▸ h2
      exact ⟨i1, i2, i3⟩
    · rw [hcase] at h2
      obtain rfl := Option.some.injEq _ _ ▸ h2
      refine ⟨by simpa using i1, by simp, ?_⟩
      simp [DAILY_CREDITS]
  refine ⟨?_, hreset, ?_⟩
  · intro res users2 hok a2 h2
    obtain ⟨a1, hla1, hpos, hsuff, hbr⟩ :=
      deductFree_ok_cases now amount users uid res users2 hok
    obtain ⟨j1, j2, j3⟩ := hreset a1 hla1
    rcases hbr with ⟨hcond, _, hu2⟩ | ⟨hcond, _, hu2⟩
    · rw [hu2, lookupUser_updateUser_self, hla1] at h2
      obtain rfl := Option.some.injEq _ _ ▸ h2
      refine ⟨by simpa using j1, by simp; omega, ?_⟩
      simp only [DAILY_CREDITS] at hcond j2 ⊢
      omega
    · rw [hu2, lookupUser_updateUser_self, hla1] at h2
      obtain rfl := Option.some.injEq _ _ ▸ h2
      refine ⟨?_, by simp [DAILY_CREDITS], by simp [DAILY_CREDITS]⟩
      simp only [DAILY_CREDITS] at hsuff ⊢
      omega
  · intro a2 h2
    cases ht : a.signupBonusGiven
    · have hlook := grant_first_lookup users uid a hl ht
      rw [hlook] at h2
      obtain rfl := Option.some.injEq _ _ ▸ h2
      refine ⟨?_, by simpa using i2, by simpa using i3⟩
      simp only [SIGNUP_BONUS]
      omega
    · rw [grant_noop_of_flag users uid a hl ht, hl] at h2
      obtain rfl := Option.some.injEq _ _ ▸ h2
      exact ⟨i1, i2, i3⟩

/-- Witness for C9 on the example account: a deduction of 2, a reset at an
expired window, and a bonus grant all keep the invariants. -/
theorem C9_invariants_preserved_witness :
    (∀ res users2,
      deductFreeUserCreditsM 0 [("u1", acctExample)] "u1" 2 =
        .ok (res, users2) →
      ∀ a2, lookupUser users2 "u1" = some a2 → InvAccount a2) ∧
    (∀ a2,
      lookupUser (resetDailyCreditsIfNeededM 200 [("u1", acctExample)]
        "u1").2 "u1" = some a2 → InvAccount a2) ∧
    (∀ a2, lookupUser (grantSignupBonusM [("u1", acctFresh)] "u1") "u1" =
      some a2 → InvAccount a2) :=
  ⟨(C9_invariants_preserved 0 2 [("u1", acctExample)] "u1" acctExample
      (by decide) (by decide)).1,
   (C9_invariants_preserved 200 2 [("u1", acctExample)] "u1" acctExample
      (by decide) (by decide)).2.1,
   (C9_invariants_preserved 0 2 [("u1", acctFresh)] "u1" acctFresh
      (by decide) (by decide)).2.2⟩

/-! ### Evaluation lemmas for the request handler -/

theorem genPhase_state (env : Env) (st : ServerState) (remaining : Int) :
    (genPhase env st remaining).2 = st := by
  unfold genPhase
  by_cases hc : env.openaiConfigured <;> cases hg : env.genOutput <;>
    simp [hc, hg]

theorem genPhase_status (env : Env) (st : ServerState) (remaining : Int) :
    (genPhase env st remaining).1.status = 200 ∨
    (genPhase env st remaining).1.status = 500 := by
  unfold genPhase
  by_cases hc : env.openaiConfigured <;> cases hg : env.genOutput <;>
    simp [hc, hg]

theorem genPhase_200 (env : Env) (st : ServerState) (remaining : Int)
    (h : (genPhase env st remaining).1.status = 200) :
    (genPhase env st remaining).1.creditsRemaining = some remaining ∧
    (genPhase env st remaining).2 = st := by
  unfold genPhase at h ⊢
  by_cases hc : env.openaiConfigured <;> cases hg : env.genOutput <;>
    simp [hc, hg] at h ⊢

/-- With an anonymous identity the handler runs the anonymous credit
branch: no token, or an invalid token on improve/refine. -/
theorem handle_anonymous_eval (env : Env) (mode : Mode) (req : Req)
    (st : ServerState)
    (hprompt : isBlank req.originalPrompt = false)
    (hmode : mode = .improve ∨ mode = .refine)
    (hanon : req.token = none ∨
      ∃ t, req.token = some t ∧ env.verify t = none) :
    handlePromptImprovement env mode req st =
      anonymousCreditsPhase env req mode st := by
  rcases hanon with htok | ⟨t, htok, hver⟩
  · rcases hmode with rfl | rfl <;>
      simp [handlePromptImprovement, hprompt, htok, proGatePhase,
        creditsPhase]
  · rcases hmode with rfl | rfl <;>
      simp [handlePromptImprovement, hprompt, htok, hver, proGatePhase,
        creditsPhase]

/-- With a valid token on a Pro account the handler skips the whole credit
section and runs the generation tail with the `-1` unlimited sentinel, in
every mode. -/
theorem handle_pro_eval (env : Env) (mode : Mode) (req : Req)
    (st : ServerState) (t uid : String) (a : Account)
    (hprompt : isBlank req.originalPrompt = false)
    (htok : req.token = some t) (hver : env.verify t = some uid)
    (hl : lookupUser st.users uid = some a) (hpro : a.isPro = true) :
    handlePromptImprovement env mode req st = genPhase env st (-1) := by
  cases mode <;>
    simp [handlePromptImprovement, hprompt, htok, hver, proGatePhase,
      creditsPhase, authenticatedCreditsPhase, getUserProStatusM, hl, hpro]

/-- With a valid token on a non-Pro account, improve/refine run the
free-user credit branch. -/
theorem handle_free_eval (env : Env) (mode : Mode) (req : Req)
    (st : ServerState) (t uid : String) (a : Account)
    (hprompt : isBlank req.originalPrompt = false)
    (htok : req.token = some t) (hver : env.verify t = some uid)
    (hl : lookupUser st.users uid = some a) (hpro : a.isPro = false)
    (hmode : mode = .improve ∨ mode = .refine) :
    handlePromptImprovement env mode req st =
      freeUserCreditsPhase env mode st uid := by
  rcases hmode with rfl | rfl <;>
    simp [handlePromptImprovement, hprompt, htok, hver, proGatePhase,
      creditsPhase, authenticatedCreditsPhase, getUserProStatusM, hl, hpro]

/-- A followup request with a valid token on a non-Pro account is denied
with 403 by the Pro gate, before the credit section, with the state
unchanged. -/
theorem handle_followup_nonpro_eval (env : Env) (req : Req)
    (st : ServerState) (t uid : String) (a : Account)
    (hprompt : isBlank req.originalPrompt = false)
    (htok : req.token = some t) (hver : env.verify t = some uid)
    (hl : lookupUser st.users uid = some a) (hpro : a.isPro = false) :
    handlePromptImprovement env .followup req st =
      ({ status := 403, errorMsg := some "Follow-up is a Pro feature." },
       st) := by
  simp [handlePromptImprovement, hprompt, htok, hver, proGatePhase,
    getUserProStatusM, hl, hpro]

/-! ### Claim C5: followup denials happen before any balance operation -/

/-- C5: a followup request denied for authentication (no token, or a token
failing verification: 401) or for tier (valid token, non-Pro account: 403)
returns the denial with the anonymous pool and every account record left
exactly as they were. -/
theorem C5_followup_denials_no_mutation (env : Env) (req : Req)
    (st : ServerState)
    (hprompt : isBlank req.originalPrompt = false) :
    (req.token = none →
      handlePromptImprovement env .followup req st =
        ({ status := 401, errorMsg := some "Authentication required." }, st)) ∧
    (∀ t, req.token = some t → env.verify t = none →
      handlePromptImprovement env .followup req st =
        ({ status := 401, errorMsg := some "Invalid or expired token" }, st)) ∧
    (∀ t uid a, req.token = some t → env.verify t = some uid →
      lookupUser st.users uid = some a → a.isPro = false →
      handlePromptImprovement env .followup req st =
        ({ status := 403, errorMsg := some "Follow-up is a Pro feature." },
         st)) := by
  refine ⟨?_, ?_, ?_⟩
  · intro htok
    simp [handlePromptImprovement, hprompt, htok]
  · intro t htok hver
    simp [handlePromptImprovement, hprompt, htok, hver]
  · intro t uid a htok hver hl hpro
    exact handle_followup_nonpro_eval env req st t uid a hprompt htok hver
      hl hpro

/-- The environment used by the closed witnesses: `"tok"` verifies to
`"u1"`, generation is configured and succeeds with output `"out"`. -/
def envW : Env :=
  { verify := fun t => if t = "tok" then some "u1" else none
    now := 0, openaiConfigured := true, genOutput := some "out" }

/-- The request used by the closed witnesses. -/
def reqW : Req :=
  { token := some "tok", originalPrompt := "p", previousPrompt := none
    clientIP := "ip" }

/-- Witness for C5: all three followup denials on concrete states. -/
theorem C5_followup_denials_no_mutation_witness :
    handlePromptImprovement envW .followup { reqW with token := none }
        { anonymousCredits := [("ip", 3)], users := [("u1", acctExample)] } =
      ({ status := 401, errorMsg := some "Authentication required." },
       { anonymousCredits := [("ip", 3)], users := [("u1", acctExample)] }) ∧
    handlePromptImprovement envW .followup { reqW with token := some "bad" }
        { anonymousCredits := [("ip", 3)], users := [("u1", acctExample)] } =
      ({ status := 401, errorMsg := some "Invalid or expired token" },
       { anonymousCredits := [("ip", 3)], users := [("u1", acctExample)] }) ∧
    handlePromptImprovement envW .followup reqW
        { anonymousCredits := [("ip", 3)], users := [("u1", acctExample)] } =
      ({ status := 403, errorMsg := some "Follow-up is a Pro feature." },
       { anonymousCredits := [("ip", 3)], users := [("u1", acctExample)] }) := by
  refine ⟨?_, ?_, ?_⟩
  · exact (C5_followup_denials_no_mutation envW _ _ (by decide)).1 rfl
  · exact (C5_followup_denials_no_mutation envW _ _ (by decide)).2.1 "bad"
      rfl (by decide)
  · exact (C5_followup_denials_no_mutation envW _ _ (by decide)).2.2 "tok"
      "u1" acctExample rfl (by decide) (by decide) (by decide)

/-! ### Claim C7: Pro followup never consults or mutates the balances -/

/-- C7: a followup request with a valid token on a Pro account skips the
balance-reservation step entirely: the response is the unlimited `-1`
sentinel with the generated output, the state is returned unchanged, and
(as the right-hand side mentions neither `bonusCredits` nor
`dailyCreditsUsed`) the outcome does not depend on those fields. -/
theorem C7_pro_followup_frame (env : Env) (req : Req) (st : ServerState)
    (t uid : String) (a : Account) (out : String)
    (hprompt : isBlank req.originalPrompt = false)
    (htok : req.token = some t) (hver : env.verify t = some uid)
    (hl : lookupUser st.users uid = some a) (hpro : a.isPro = true)
    (hconf : env.openaiConfigured = true) (hgen : env.genOutput = some out) :
    handlePromptImprovement env .followup req st =
      ({ status := 200, success := true, output := some out
         creditsRemaining := some (-1) }, st) := by
  rw [handle_pro_eval env .followup req st t uid a hprompt htok hver hl hpro]
  simp [genPhase, hconf, hgen]

/-- Witness for C7 on a concrete Pro account. -/
theorem C7_pro_followup_frame_witness :
    handlePromptImprovement envW .followup reqW
        { anonymousCredits := [], users := [("u1", { acctExample with
          isPro := true })] } =
      ({ status := 200, success := true, output := some "out"
         creditsRemaining := some (-1) },
       { anonymousCredits := [], users := [("u1", { acctExample with
         isPro := true })] }) :=
  C7_pro_followup_frame envW reqW _ "tok" "u1"
    { acctExample with isPro := true } "out" (by decide) rfl (by decide)
    (by decide) (by decide) (by decide) (by decide)

/-! ### Claim C8: an invalid token on improve/refine is exactly anonymous -/

theorem genPhase_status_ne_401 (env : Env) (st : ServerState)
    (remaining : Int) : (genPhase env st remaining).1.status ≠ 401 := by
  rcases genPhase_status env st remaining with h | h <;> omega

theorem anonymousPhase_status_ne_401 (env : Env) (req : Req) (mode : Mode)
    (st : ServerState) :
    (anonymousCreditsPhase env req mode st).1.status ≠ 401 := by
  simp only [anonymousCreditsPhase]
  split
  · simp
  · split
    · simp
    · split
      · apply genPhase_status_ne_401
      · split <;> simp

/-- C8: an improve/refine request whose token fails verification produces
exactly the response and state of the same request with no token at all —
the anonymous path charged to the client identifier — and its status is
never 401. -/
theorem C8_invalid_token_is_anonymous (env : Env) (mode : Mode) (req : Req)
    (st : ServerState) (t : String)
    (hmode : mode = .improve ∨ mode = .refine)
    (htok : req.token = some t) (hver : env.verify t = none) :
    handlePromptImprovement env mode req st =
      handlePromptImprovement env mode { req with token := none } st ∧
    (handlePromptImprovement env mode req st).1.status ≠ 401 := by
  by_cases hprompt : isBlank req.originalPrompt
  · constructor
    · rcases hmode with rfl | rfl <;>
        simp [handlePromptImprovement, hprompt]
    · rcases hmode with rfl | rfl <;>
        simp [handlePromptImprovement, hprompt]
  · rw [Bool.not_eq_true] at hprompt
    have h1 := handle_anonymous_eval env mode req st hprompt hmode
      (Or.inr ⟨t, htok, hver⟩)
    have h2 := handle_anonymous_eval env mode { req with token := none } st
      hprompt hmode (Or.inl rfl)
    constructor
    · rw [h1, h2]
      rfl
    · rw [h1]
      exact anonymousPhase_status_ne_401 env req mode st

/-- Witness for C8 on a concrete request with a bad token. -/
theorem C8_invalid_token_is_anonymous_witness :
    handlePromptImprovement envW .improve { reqW with token := some "bad" }
        { anonymousCredits := [("ip", 5)], users := [("u1", acctExample)] } =
      handlePromptImprovement envW .improve { reqW with token := none }
        { anonymousCredits := [("ip", 5)], users := [("u1", acctExample)] } ∧
    (handlePromptImprovement envW .improve { reqW with token := some "bad" }
        { anonymousCredits := [("ip", 5)],
          users := [("u1", acctExample)] }).1.status ≠ 401 :=
  C8_invalid_token_is_anonymous envW .improve { reqW with token := some "bad" }
    { anonymousCredits := [("ip", 5)], users := [("u1", acctExample)] } "bad"
    (Or.inl rfl) rfl (by decide)

/-! ### Claim C3: the COMPLETED response reports the post-deduction value -/

theorem deductAnon_ok_pool (pool : AnonPool) (ip : String) (amount v : Int)
    (h : (deductAnonymousCreditsM pool ip amount).1 = .ok v) :
    mapGet (deductAnonymousCreditsM pool ip amount).2 ip = some v := by
  simp only [deductAnonymousCreditsM] at h ⊢
  by_cases hlt : (getAnonymousCreditsM pool ip).1 < amount
  · simp [hlt] at h
  · simp only [if_neg hlt, Except.ok.injEq] at h
    simp only [if_neg hlt]
    rw [mapGet_mapSet_self, h]

theorem deductFree_ok_row (now amount : Int) (users : Users) (uid : String)
    (res : DeductResult) (users2 : Users)
    (h : deductFreeUserCreditsM now users uid amount = .ok (res, users2)) :
    ∃ a2, lookupUser users2 uid = some a2 ∧
      a2.credits = res.remainingCredits := by
  obtain ⟨a1, hla1, _, _, hbr⟩ :=
    deductFree_ok_cases now amount users uid res users2 h
  rcases hbr with ⟨_, hres, hu2⟩ | ⟨_, hres, hu2⟩ <;> subst hu2 <;>
    subst hres <;> simp [lookupUser_updateUser_self, hla1]

theorem anonymousPhase_200 (env : Env) (req : Req) (mode : Mode)
    (st : ServerState)
    (h : (anonymousCreditsPhase env req mode st).1.status = 200) :
    mapGet (anonymousCreditsPhase env req mode st).2.anonymousCredits
        req.clientIP =
      (anonymousCreditsPhase env req mode st).1.creditsRemaining := by
  by_cases h1 : (getAnonymousCreditsM st.anonymousCredits req.clientIP).1 ≤ 0
  · simp [anonymousCreditsPhase, h1] at h
  · by_cases h2 : (getAnonymousCreditsM st.anonymousCredits req.clientIP).1 <
        creditCost mode
    · simp [anonymousCreditsPhase, h1, h2] at h
    · rcases hd : (deductAnonymousCreditsM
          (getAnonymousCreditsM st.anonymousCredits req.clientIP).2
          req.clientIP (creditCost mode)).1 with msg | remaining
      · by_cases hmsg : msg = "Insufficient credits" <;>
          simp [anonymousCreditsPhase, h1, h2, hd, hmsg] at h
      · have hpool := deductAnon_ok_pool
          (getAnonymousCreditsM st.anonymousCredits req.clientIP).2
          req.clientIP (creditCost mode) remaining hd
        simp only [anonymousCreditsPhase, h1, if_neg, ite_false, h2, hd] at h ⊢
        obtain ⟨hcr, hst⟩ := genPhase_200 env _ remaining h
        rw [hcr, hst]
        exact hpool

theorem freePhase_200 (env : Env) (mode : Mode) (st : ServerState)
    (uid : String)
    (h : (freeUserCreditsPhase env mode st uid).1.status = 200) :
    ∃ a2, lookupUser (freeUserCreditsPhase env mode st uid).2.users uid =
        some a2 ∧
      (freeUserCreditsPhase env mode st uid).1.creditsRemaining =
        some a2.credits := by
  by_cases h1 : totalAvailableGate (getUserCreditInfoM
      (resetDailyCreditsIfNeededM env.now st.users uid).2 uid) <
      creditCost mode
  · simp [freeUserCreditsPhase, h1] at h
  · rcases hd : deductFreeUserCreditsM env.now
        (resetDailyCreditsIfNeededM env.now st.users uid).2 uid
        (creditCost mode) with msg | p
    · by_cases hmsg : msg = "Insufficient credits" <;>
        simp [freeUserCreditsPhase, h1, hd, hmsg] at h
    · obtain ⟨res, users2⟩ := p
      obtain ⟨a2, hla2, hcred⟩ := deductFree_ok_row env.now (creditCost mode)
        (resetDailyCreditsIfNeededM env.now st.users uid).2 uid res users2 hd
      simp only [freeUserCreditsPhase, h1, if_neg, ite_false, hd] at h ⊢
      obtain ⟨hcr, hst⟩ := genPhase_200 env _ _ h
      rw [hcr, hst]
      exact ⟨a2, hla2, by rw [hcred]⟩

/-- C3: whenever a request completes with status 200, the reported
`creditsRemaining` is the credit source's post-deduction value: the new
stored balance of the anonymous pool entry for the client identifier, the
persisted post-deduction bonus-credit balance of the account row for a
free authenticated caller, and the `-1` unlimited sentinel for a Pro
account. -/
theorem C3_completed_remaining (env : Env) (mode : Mode) (req : Req)
    (st : ServerState)
    (h200 : (handlePromptImprovement env mode req st).1.status = 200) :
    ((req.token = none ∨ ∃ t, req.token = some t ∧ env.verify t = none) →
      mapGet (handlePromptImprovement env mode req st).2.anonymousCredits
          req.clientIP =
        (handlePromptImprovement env mode req st).1.creditsRemaining) ∧
    (∀ t uid a, req.token = some t → env.verify t = some uid →
      lookupUser st.users uid = some a → a.isPro = false →
      ∃ a2,
        lookupUser (handlePromptImprovement env mode req st).2.users uid =
          some a2 ∧
        (handlePromptImprovement env mode req st).1.creditsRemaining =
          some a2.credits) ∧
    (∀ t uid a, req.token = some t → env.verify t = some uid →
      lookupUser st.users uid = some a → a.isPro = true →
      (handlePromptImprovement env mode req st).1.creditsRemaining =
        some (-1)) := by
  by_cases hprompt : isBlank req.originalPrompt
  · simp [handlePromptImprovement, hprompt] at h200
  · rw [Bool.not_eq_true] at hprompt
    refine ⟨?_, ?_, ?_⟩
    · intro hanon
      by_cases hmode : mode = .improve ∨ mode = .refine
      · have heval := handle_anonymous_eval env mode req st hprompt hmode hanon
        rw [heval] at h200 ⊢
        exact anonymousPhase_200 env req mode st h200
      · have hfu : mode = .followup := by
          cases mode <;> simp_all
        subst hfu
        rcases hanon with htok | ⟨t, htok, hver⟩
        · simp [handlePromptImprovement, hprompt, htok] at h200
        · simp [handlePromptImprovement, hprompt, htok, hver] at h200
    · intro t uid a htok hver hl hpro
      by_cases hmode : mode = .improve ∨ mode = .refine
      · have heval := handle_free_eval env mode req st t uid a hprompt htok
          hver hl hpro hmode
        rw [heval] at h200 ⊢
        exact freePhase_200 env mode st uid h200
      · have hfu : mode = .followup := by
          cases mode <;> simp_all
        subst hfu
        have := handle_followup_nonpro_eval env req st t uid a hprompt htok
          hver hl hpro
        rw [this] at h200
        simp at h200
    · intro t uid a htok hver hl hpro
      have heval := handle_pro_eval env mode req st t uid a hprompt htok
        hver hl hpro
      rw [heval] at h200 ⊢
      exact (genPhase_200 env st (-1) h200).1

/-- Witness for C3: a free authenticated improve request completing at 200
reports the persisted post-deduction bonus balance. -/
theorem C3_completed_remaining_witness :
    ∃ a2,
      lookupUser (handlePromptImprovement envW .improve reqW
        { anonymousCredits := [], users := [("u1", acctExample)] }).2.users
        "u1" = some a2 ∧
      (handlePromptImprovement envW .improve reqW
        { anonymousCredits := [], users := [("u1", acctExample)] }).1.creditsRemaining =
        some a2.credits :=
  (C3_completed_remaining envW .improve reqW
    { anonymousCredits := [], users := [("u1", acctExample)] }
    (by decide)).2.1 "tok" "u1" acctExample rfl (by decide) (by decide)
    (by decide)

/-! ### Claim C10: concurrent reservations

`deductAnonymousCredits` is a synchronous block (no `await` between its
check and its `Map.set`), so on the Node event loop two concurrent
anonymous reservations execute in one order or the other.
`deductFreeUserCredits`, by contrast, `await`s a read
(`getUserCreditInfo`) and later an `update` write against the persistent
store with no transactional guard, so two in-flight calls interleave at
those await points.  The race model below splits the ledger deduction into
its read step and its compute-and-write step for an account whose daily
window is unexpired (the preceding `resetDailyCreditsIfNeeded` then
performs reads only). -/

/-- Thread-local state of one in-flight ledger deduction: the credit
snapshot captured by its read, and its eventual outcome. -/
structure RaceThread where
  snapshot : Option CreditInfo := none
  result : Option (Except String DeductResult) := none
deriving Repr, DecidableEq

/-- Shared store plus the two in-flight deductions. -/
structure RaceState where
  users : Users
  t1 : RaceThread
  t2 : RaceThread
deriving Repr, DecidableEq

/-- One scheduler step of one in-flight ledger deduction: first the
`getUserCreditInfo` read, then the availability check and (on success) the
`update` write, computed from the thread's own snapshot exactly as in
`deductFreeUserCreditsM`. -/
def threadStep (uid : String) (amount : Int) (users : Users)
    (th : RaceThread) : Users × RaceThread :=
  match th.snapshot with
  | none =>
    (users, { th with snapshot := some (getUserCreditInfoM users uid) })
  | some info =>
    match th.result with
    | some _ => (users, th)
    | none =>
      let dailyCreditsAvailable := DAILY_CREDITS - info.dailyCreditsUsed
      let bonusCredits := info.credits
      if dailyCreditsAvailable + bonusCredits < amount then
        (users, { th with result := some (.error "Insufficient credits") })
      else
        let newDailyCreditsUsed :=
          if dailyCreditsAvailable ≥ amount then
            info.dailyCreditsUsed + amount
          else DAILY_CREDITS
        let newBonusCredits :=
          if dailyCreditsAvailable ≥ amount then bonusCredits
          else bonusCredits - (amount - dailyCreditsAvailable)
        let creditSource :=
          if dailyCreditsAvailable ≥ amount then "daily" else "mixed"
        (updateUser users uid (fun a =>
          { a with dailyCreditsUsed := newDailyCreditsUsed
                   credits := newBonusCredits }),
         { th with result := some (.ok
           { remainingCredits := newBonusCredits
             dailyCreditsRemaining := DAILY_CREDITS - newDailyCreditsUsed
             creditSource := creditSource }) })

/-- Run the two in-flight deductions under a schedule: `true` steps the
first thread, `false` the second. -/
def raceRun (uid : String) (amount : Int) :
    List Bool → RaceState → RaceState
  | [], rs => rs
  | b :: sched, rs =>
    if b then
      let p := threadStep uid amount rs.users rs.t1
      raceRun uid amount sched { rs with users := p.1, t1 := p.2 }
    else
      let p := threadStep uid amount rs.users rs.t2
      raceRun uid amount sched { rs with users := p.1, t2 := p.2 }

/-- An account with exactly one unit of availability: daily allowance
exhausted, one bonus credit, unexpired window. -/
def acctRace : Account :=
  { isPro := false, credits := 1, dailyCreditsUsed := 3
    dailyResetAt := some 100, signupBonusGiven := true }

/-- C10 counterexample: the account-ledger check-then-decrement does NOT
behave as if serialized per key.  Under the schedule read1, read2, write1,
write2, two concurrent cost-1 ledger deductions from an account holding
exactly 1 unit of availability BOTH succeed (each thread's check passes on
its own pre-write snapshot), where serialized execution would fail the
second with `Insufficient credits`. -/
theorem C10_ledger_race_counterexample :
    totalAvailableGate acctRace.info = 1 ∧
    (raceRun "u1" 1 [true, false, true, false]
        { users := [("u1", acctRace)], t1 := {}, t2 := {} }).t1.result =
      some (.ok { remainingCredits := 0, dailyCreditsRemaining := 0
                  creditSource := "mixed" }) ∧
    (raceRun "u1" 1 [true, false, true, false]
        { users := [("u1", acctRace)], t1 := {}, t2 := {} }).t2.result =
      some (.ok { remainingCredits := 0, dailyCreditsRemaining := 0
                  creditSource := "mixed" }) := by decide

/-- C10 amended: the anonymous pool's check-then-decrement runs
synchronously on the event loop, so two concurrent cost-1 reservations
against one identifier holding exactly 1 remaining credit serialize and
yield exactly one success (storing 0) and one `Insufficient credits`
failure that leaves the pool unchanged; the account ledger's awaited
read-then-write is not serialized (see the counterexample). -/
theorem C10_anonymous_serialized_amended (pool : AnonPool) (ip : String)
    (h : mapGet pool ip = some 1) :
    (deductAnonymousCreditsM pool ip 1).1 = .ok 0 ∧
    mapGet (deductAnonymousCreditsM pool ip 1).2 ip = some 0 ∧
    (deductAnonymousCreditsM (deductAnonymousCreditsM pool ip 1).2 ip 1).1 =
      .error "Insufficient credits" ∧
    (deductAnonymousCreditsM (deductAnonymousCreditsM pool ip 1).2 ip 1).2 =
      (deductAnonymousCreditsM pool ip 1).2 := by
  have hp := getAnonymousCreditsM_present pool ip 1 h
  have hok : deductAnonymousCreditsM pool ip 1 = (.ok 0, mapSet pool ip 0) := by
    simp [deductAnonymousCreditsM, hp]
  have hget2 : mapGet (mapSet pool ip 0) ip = some 0 :=
    mapGet_mapSet_self pool ip 0
  have hp2 := getAnonymousCreditsM_present (mapSet pool ip 0) ip 0 hget2
  refine ⟨by rw [hok], by rw [hok]; exact hget2, ?_, ?_⟩
  · rw [hok]
    simp [deductAnonymousCreditsM, hp2]
  · rw [hok]
    simp [deductAnonymousCreditsM, hp2]

/-- Witness for the amended C10 on a concrete pool. -/
theorem C10_anonymous_serialized_amended_witness :
    (deductAnonymousCreditsM [("ip", 1)] "ip" 1).1 = .ok 0 ∧
    mapGet (deductAnonymousCreditsM [("ip", 1)] "ip" 1).2 "ip" = some 0 ∧
    (deductAnonymousCreditsM
      (deductAnonymousCreditsM [("ip", 1)] "ip" 1).2 "ip" 1).1 =
      .error "Insufficient credits" ∧
    (deductAnonymousCreditsM
      (deductAnonymousCreditsM [("ip", 1)] "ip" 1).2 "ip" 1).2 =
      (deductAnonymousCreditsM [("ip", 1)] "ip" 1).2 :=
  C10_anonymous_serialized_amended [("ip", 1)] "ip" (by decide)

end EasyPrompt
